import Mathlib

/-!
Shallow embedding of the readGDbook e-book reader application.

The embedding models, from the TypeScript source:
* the data model of `src/types.ts` (Book, Note, UserSettings, ExternalBook);
* the persistent store wrapper `src/services/storageService.ts`
  (IndexedDB object stores keyed by `id` are modelled as lists with a
  replace-or-insert `put`);
* the application logic of `src/App.tsx` (`handleAddBook`,
  `performSearch`, `handleDownloadAndAdd`, `handleOpenBook`);
* the serverless search endpoint (`src/api/search.ts` and its variant
  `src/unnamed/part_001`): regex extraction of book identifiers from the
  scraped HTML and the result-building loop;
* the reader initialisation effect of `src/components/Reader.tsx`.

JavaScript string operations (`includes`, `startsWith`, first-occurrence
`replace`) are embedded as explicit functions on character lists.
-/

/-- `matchAt pat s`: the character list `pat` is a prefix of `s`
(JS `String.startsWith` on the decomposed string). -/
def matchAt : List Char → List Char → Bool
  | [], _ => true
  | _ :: _, [] => false
  | p :: ps, c :: cs => p == c && matchAt ps cs

/-- `occursIn pat s`: `pat` occurs as a contiguous substring of `s`
(the semantics of JS `String.includes`). -/
def occursIn (pat : List Char) : List Char → Bool
  | [] => pat.isEmpty
  | c :: cs => matchAt pat (c :: cs) || occursIn pat cs

/-- JS `s.includes(pat)`. -/
def jsIncludes (s pat : String) : Bool := occursIn pat.data s.data

/-- JS `s.startsWith(pat)`. -/
def jsStartsWith (s pat : String) : Bool := matchAt pat.data s.data

/-- JS `s.trim()`: strip leading and trailing whitespace. -/
def jsTrim (s : String) : String :=
  String.mk
    (((s.data.dropWhile Char.isWhitespace).reverse.dropWhile
        Char.isWhitespace).reverse)

/-- JS `s.toLowerCase()`: lower-case each character. -/
def jsToLower (s : String) : String := String.mk (s.data.map Char.toLower)

/-- JS `s.replace(pat, repl)` with a string pattern: replaces only the
first occurrence of `pat`. -/
def replFirst (pat repl : List Char) : List Char → List Char
  | [] => []
  | c :: cs =>
    if matchAt pat (c :: cs) then repl ++ (c :: cs).drop pat.length
    else c :: replFirst pat repl cs

/-- Theme enumeration of `src/types.ts`. -/
inductive ThemeType where
  | light
  | parchment
  | eyeGreen
  | dark
deriving Repr, DecidableEq

/-- `Book` of `src/types.ts`.  The raw EPUB bytes (`ArrayBuffer`) are
modelled as a list of byte values; `data = none` models a record whose
`data` field is undefined/absent (the falsy case checked by the code). -/
structure Book where
  id : String
  title : String
  author : String
  data : Option (List Nat)
  source : String
  addedAt : Nat
deriving Repr, DecidableEq

/-- `Note` of `src/types.ts`. -/
structure Note where
  id : String
  bookId : String
  cfi : String
  text : String
  annotation : String
  color : String
  createdAt : Nat
deriving Repr, DecidableEq

/-- `UserSettings` of `src/types.ts`.  `fontSize` is an integer
percentage. -/
structure UserSettings where
  theme : ThemeType
  fontSize : Int
  fontFamily : String
deriving Repr, DecidableEq

/-- `ExternalBook` of `src/types.ts`: an ephemeral online search
result. -/
structure ExternalBook where
  id : String
  title : String
  author : String
  source : String
  downloadUrl : String
deriving Repr, DecidableEq

/-- The persistent store of `src/services/storageService.ts`: the three
IndexedDB object stores (books and notes keyed by `id`, plus the
settings singleton under the key "current"). -/
structure DB where
  books : List Book
  notes : List Note
  settings : Option UserSettings
deriving Repr, DecidableEq

/-- The empty store (fresh IndexedDB database). -/
def dbEmpty : DB := { books := [], notes := [], settings := none }

/-- IndexedDB `put` on an object store with `keyPath: 'id'`: replaces
the record with the same key if present, otherwise inserts. -/
def putByKey (key : α → String) (xs : List α) (x : α) : List α :=
  if xs.any (fun y => key y == key x) then
    xs.map (fun y => if key y == key x then x else y)
  else xs ++ [x]

/-- `saveBook` of `src/services/storageService.ts`. -/
def saveBook (b : Book) (st : DB) : DB :=
  { st with books := putByKey Book.id st.books b }

/-- `getBooks` of `src/services/storageService.ts`. -/
def getBooks (st : DB) : List Book := st.books

/-- `deleteBook` of `src/services/storageService.ts`: removes the book
record with the given key from the books store; the notes store is not
touched. -/
def deleteBook (bookId : String) (st : DB) : DB :=
  { st with books := st.books.filter (fun b => !(b.id == bookId)) }

/-- `getNotes` of `src/services/storageService.ts`. -/
def getNotes (st : DB) : List Note := st.notes

/-- `deleteNote` of `src/services/storageService.ts`. -/
def deleteNote (noteId : String) (st : DB) : DB :=
  { st with notes := st.notes.filter (fun n => !(n.id == noteId)) }

/-- `syncToNotion` of `src/services/storageService.ts`: the reserved
external sync hook.  Its body only logs the note, so it always
succeeds. -/
def syncToNotion (_ : Note) : Except String Unit := Except.ok ()

/-- The body of `saveNote` of `src/services/storageService.ts` with the
sync hook abstracted as a parameter, to express hook-failure scenarios:
`await db.put(NOTES, note); await syncToNotion(note)`.  The note is put
first; the hook's outcome is then awaited (an uncaught rejection of the
hook would surface to the caller), so the call returns the updated
store paired with the hook's outcome. -/
def saveNoteWith (hook : Note → Except String Unit) (note : Note) (st : DB) :
    DB × Except String Unit :=
  ({ st with notes := putByKey Note.id st.notes note }, hook note)

/-- `saveNote` of `src/services/storageService.ts`: put the note, then
await the `syncToNotion` hook. -/
def saveNote (note : Note) (st : DB) : DB × Except String Unit :=
  saveNoteWith syncToNotion note st

/-- The note filter of `searchGlobalNotes`
(`src/services/storageService.ts` lines 83-86):
`n.text.toLowerCase().includes(lowerQuery) || (n.annotation &&
n.annotation.toLowerCase().includes(lowerQuery))`.  The truthiness
test on the `annotation` string is the explicit emptiness check. -/
def noteMatches (lowerQuery : String) (n : Note) : Bool :=
  jsIncludes (jsToLower n.text) lowerQuery ||
    (!( Note.annotation n == "") &&
      jsIncludes (jsToLower ( Note.annotation n)) lowerQuery)

/-- `searchGlobalNotes` of `src/services/storageService.ts`: filter the
notes by the case-insensitive matcher and join each hit against the
books store by `bookId`. -/
def searchGlobalNotes (query : String) (st : DB) : List (Note × Option Book) :=
  let lowerQuery := jsToLower query
  let filtered := (getNotes st).filter (fun n => noteMatches lowerQuery n)
  filtered.map (fun note =>
    (note, (getBooks st).find? (fun b => b.id == note.bookId)))

example : jsIncludes ("Hello World") ("lo W") = true := by decide
example : jsIncludes ("Hello") ("hello") = false := by decide
example : jsStartsWith ("audioBook7") ("audio") = true := by decide
example :
    (replFirst (".epub").data [] ("war.epub").data).asString = "war" := by
  decide

/-- `getSettings` of `src/services/storageService.ts`: the singleton
record under key "current", or the default. -/
def getSettings (st : DB) : UserSettings :=
  match st.settings with
  | some s => s
  | none =>
    { theme := ThemeType.parchment, fontSize := 100,
      fontFamily := "\"Noto Serif TC\", serif" }

/-- `saveSettings` of `src/services/storageService.ts`. -/
def saveSettings (s : UserSettings) (st : DB) : DB :=
  { st with settings := some s }

/-- The `Book` record built by `handleAddBook` of `src/App.tsx`
(lines 47-54): id is `Date.now().toString()`, the title is the file
name with the first ".epub" removed, the author is the placeholder,
the source is "local". -/
def importBook (now : Nat) (fileName : String) (content : List Nat) : Book :=
  { id := toString now,
    title := (replFirst (".epub").data [] fileName.data).asString,
    author := "未知作者",
    data := some content,
    source := "local",
    addedAt := now }

/-- `handleAddBook` of `src/App.tsx`: build the new record and persist
it via `storage.saveBook` (followed in the source by a full re-read of
the books store). -/
def handleAddBook (now : Nat) (fileName : String) (content : List Nat)
    (st : DB) : DB :=
  saveBook (importBook now fileName content) st

/-- Outcome of one run of `handleDownloadAndAdd` of `src/App.tsx`. -/
inductive DownloadOutcome where
  /-- The sentinel-URL branch: the alert explaining that the entry is
  preview data, not a real source. -/
  | invalidSource
  /-- The user declined the `window.confirm` dialog. -/
  | cancelled
  /-- The fetch of `/api/download` failed (non-ok response or thrown
  error): the failure alert is shown, nothing is stored. -/
  | failed
  /-- The bytes were fetched and the book stored. -/
  | saved
deriving Repr, DecidableEq

/-- Result of one run of `handleDownloadAndAdd`: the outcome, the
number of network requests issued, and the store afterwards. -/
structure DownloadRun where
  outcome : DownloadOutcome
  networkCalls : Nat
  st : DB
deriving Repr, DecidableEq

/-- `handleDownloadAndAdd` of `src/App.tsx` (lines 93-131).
`confirmed` is the user's answer to `window.confirm`; `fetched` is the
response of the single `/api/download` fetch (`none` models a non-ok
response or a thrown error).  The sentinel check
`downloadUrl === '#' || downloadUrl.includes('mock-haodoo')` returns
before any network activity. -/
def handleDownloadAndAdd (eb : ExternalBook) (confirmed : Bool)
    (fetched : Option (List Nat)) (now : Nat) (st : DB) : DownloadRun :=
  if eb.downloadUrl == "#" || jsIncludes eb.downloadUrl ("mock-haodoo") then
    { outcome := DownloadOutcome.invalidSource, networkCalls := 0, st := st }
  else if !confirmed then
    { outcome := DownloadOutcome.cancelled, networkCalls := 0, st := st }
  else
    match fetched with
    | none => { outcome := DownloadOutcome.failed, networkCalls := 1, st := st }
    | some bytes =>
      { outcome := DownloadOutcome.saved,
        networkCalls := 1,
        st := saveBook
          { id := eb.id, title := eb.title, author := eb.author,
            data := some bytes, source := jsToLower eb.source,
            addedAt := now } st }

/-- Result of one run of the `performSearch` closure in `src/App.tsx`:
the two result lists it sets, and how many times it invoked
`storage.searchGlobalNotes` and `storage.searchFreeBooks`. -/
structure SearchRun where
  searchResults : List (Note × Option Book)
  externalResults : List ExternalBook
  noteSearchCalls : Nat
  webSearchCalls : Nat
deriving Repr, DecidableEq

/-- `performSearch` of `src/App.tsx` (lines 64-90): a query whose
trimmed length is below 2 clears both result lists and returns before
issuing either search; otherwise `searchGlobalNotes` and
`searchFreeBooks` are both issued (`online` stands for the response of
the external search). -/
def performSearch (query : String) (st : DB) (online : List ExternalBook) :
    SearchRun :=
  if (jsTrim query).length < 2 then
    { searchResults := [], externalResults := [],
      noteSearchCalls := 0, webSearchCalls := 0 }
  else
    { searchResults := searchGlobalNotes query st,
      externalResults := online,
      noteSearchCalls := 1, webSearchCalls := 1 }

/-- The view the App is showing. -/
inductive AppViewKind where
  | library
  | reader
  | searchView
deriving Repr, DecidableEq

/-- `handleOpenBook` of `src/App.tsx` (lines 138-151): a book without
content bytes triggers the "damaged" alert and leaves the view and the
active book unchanged; otherwise the book becomes active and the view
switches to the reader. -/
def handleOpenBook (b : Book) (view : AppViewKind) (active : Option Book) :
    AppViewKind × Option Book :=
  if b.data.isNone then (view, active)
  else (AppViewKind.reader, some b)


/-- The literal part of the extraction regex
`/\?M=book&P=([A-Za-z0-9]+)/g` of `src/api/search.ts` line 30. -/
def bookLinkPat : List Char := ("?M=book&P=").data

/-- Split a character list into its longest leading `[A-Za-z0-9]` run
(the capture group of the extraction regex) and the remainder. -/
def alnumRun : List Char → List Char × List Char
  | [] => ([], [])
  | c :: cs =>
    if c.isAlpha || c.isDigit then
      ((c :: (alnumRun cs).1), (alnumRun cs).2)
    else ([], c :: cs)

theorem alnumRun_snd_length (l : List Char) : (alnumRun l).2.length ≤ l.length := by
  induction l with
  | nil => simp [alnumRun]
  | cons c cs ih =>
    by_cases h : (c.isAlpha || c.isDigit) = true
    · simp [alnumRun, h]
      omega
    · simp [alnumRun, h]

/-- Fuel-bounded scan behind `extractIds`; the fuel decreases by one
per step while the scanned list shrinks by at least one character, so
fuel equal to the list length never runs out
(`extractIdsAux_fuel_irrelevant`). -/
def extractIdsAux : Nat → List Char → List String
  | 0, _ => []
  | _ + 1, [] => []
  | fuel + 1, c :: cs =>
    if matchAt bookLinkPat (c :: cs) then
      if (alnumRun ((c :: cs).drop bookLinkPat.length)).1.isEmpty then
        extractIdsAux fuel cs
      else
        (alnumRun ((c :: cs).drop bookLinkPat.length)).1.asString ::
          extractIdsAux fuel (alnumRun ((c :: cs).drop bookLinkPat.length)).2
    else extractIdsAux fuel cs

/-- `html.matchAll(/\?M=book&P=([A-Za-z0-9]+)/g)` mapped to the capture
groups: scan the decoded page, and at each position where the literal
`?M=book&P=` is followed by at least one alphanumeric character, emit
that maximal alphanumeric run and resume after it (global-flag
semantics: the next search starts after the end of the whole match). -/
def extractIds (l : List Char) : List String := extractIdsAux l.length l

/-- Any sufficient fuel computes the same extraction, so
`extractIds`'s fuel bound is not an artefact of the embedding. -/
theorem extractIdsAux_fuel_irrelevant :
    ∀ (f1 f2 : Nat) (l : List Char), l.length ≤ f1 → l.length ≤ f2 →
      extractIdsAux f1 l = extractIdsAux f2 l := by
  intro f1
  induction f1 with
  | zero =>
    intro f2 l h1 _
    have : l = [] := by
      cases l with
      | nil => rfl
      | cons c cs => simp at h1
    subst this
    cases f2 <;> rfl
  | succ a ih =>
    intro f2 l h1 h2
    cases l with
    | nil => cases f2 <;> rfl
    | cons c cs =>
      cases f2 with
      | zero => simp at h2
      | succ b =>
        have hcs1 : cs.length ≤ a := by simp at h1; omega
        have hcs2 : cs.length ≤ b := by simp at h2; omega
        have hrest := alnumRun_snd_length ((c :: cs).drop bookLinkPat.length)
        have hdrop : ((c :: cs).drop bookLinkPat.length).length
            = (c :: cs).length - bookLinkPat.length := by simp
        simp only [List.length_cons] at hdrop
        simp only [extractIdsAux]
        by_cases hm : matchAt bookLinkPat (c :: cs) = true
        · by_cases he :
              (alnumRun ((c :: cs).drop bookLinkPat.length)).1.isEmpty = true
          · simp only [hm, he, if_true]
            exact ih b cs hcs1 hcs2
          · simp only [hm, he, if_true, if_false]
            have : (alnumRun ((c :: cs).drop bookLinkPat.length)).2.length ≤ a := by
              have hp : (0 : Nat) < bookLinkPat.length := by decide
              omega
            have h2' : (alnumRun ((c :: cs).drop bookLinkPat.length)).2.length ≤ b := by
              have hp : (0 : Nat) < bookLinkPat.length := by decide
              omega
            rw [ih b _ this h2']
            simp
        · simp only [hm, if_false]
          exact ih b cs hcs1 hcs2

example :
    extractIds ("<a href=\"?M=book&P=A123\">x</a> ?M=book&P=A123 ?M=book&P=audioB9!").data
      = ["A123", "A123", "audioB9"] := by decide

/-- The JSON record shape produced by the search endpoint. -/
structure SearchRec where
  id : String
  title : String
  author : String
  source : String
  downloadUrl : String
deriving Repr, DecidableEq

/-- The record pushed for an extracted identifier
(`src/api/search.ts` lines 41-48). -/
def mkHaodooRec (keyword bookId : String) : SearchRec :=
  { id := "haodoo-" ++ bookId,
    title := keyword ++ " (ID: " ++ bookId ++ ")",
    author := "好讀藏書",
    source := "Haodoo",
    downloadUrl := "http://www.haodoo.net/?M=d&P=" ++ bookId ++ ".epub" }

/-- The result-building loop of `src/api/search.ts` (lines 34-51):
for each extracted identifier, push a record unless the identifier was
already seen, then break once five records have been pushed.
`seen` models the `uniqueIds` set, `results` the accumulated array. -/
def searchLoopV1 (keyword : String) :
    List String → List String → List SearchRec → List SearchRec
  | [], _, results => results
  | bookId :: rest, seen, results =>
    if seen.contains bookId then
      if results.length ≥ 5 then results
      else searchLoopV1 keyword rest seen results
    else
      if (results ++ [mkHaodooRec keyword bookId]).length ≥ 5 then
        results ++ [mkHaodooRec keyword bookId]
      else
        searchLoopV1 keyword rest (bookId :: seen)
          (results ++ [mkHaodooRec keyword bookId])

/-- The result-building loop of the `src/unnamed/part_001` variant of
the search endpoint (lines 34-51): identical to `searchLoopV1` except
that an identifier whose lower-cased form starts with "audio" is also
skipped. -/
def searchLoopV2 (keyword : String) :
    List String → List String → List SearchRec → List SearchRec
  | [], _, results => results
  | bookId :: rest, seen, results =>
    if seen.contains bookId || jsStartsWith (jsToLower bookId) ("audio") then
      if results.length ≥ 5 then results
      else searchLoopV2 keyword rest seen results
    else
      if (results ++ [mkHaodooRec keyword bookId]).length ≥ 5 then
        results ++ [mkHaodooRec keyword bookId]
      else
        searchLoopV2 keyword rest (bookId :: seen)
          (results ++ [mkHaodooRec keyword bookId])

/-- The hardcoded fallback record of `src/api/search.ts`
(lines 56-62), returned when zero identifiers were extracted. -/
def gutenbergFallbackV1 (keyword : String) : SearchRec :=
  { id := "gutenberg-fallback",
    title := "未找到「" ++ keyword ++ "」，試試這本測試書",
    author := "William Shakespeare",
    source := "Gutenberg",
    downloadUrl := "https://www.gutenberg.org/ebooks/1513.epub.images" }

/-- The hardcoded fallback record of `src/unnamed/part_001`
(lines 57-63). -/
def gutenbergFallbackV2 (keyword : String) : SearchRec :=
  { id := "gutenberg-fallback",
    title := "未找到「" ++ keyword ++ "」的 EPUB",
    author := "System",
    source := "Gutenberg",
    downloadUrl := "https://www.gutenberg.org/ebooks/1513.epub.images" }

/-- The 200-response body of the `src/api/search.ts` handler for a
successfully fetched and decoded page `html`: run the extraction loop,
and if it produced nothing, answer with the fabricated fallback
entry. -/
def searchHandlerV1 (keyword html : String) : List SearchRec :=
  if (searchLoopV1 keyword (extractIds html.data) [] []).isEmpty then
    [gutenbergFallbackV1 keyword]
  else searchLoopV1 keyword (extractIds html.data) [] []

/-- The 200-response body of the `src/unnamed/part_001` handler. -/
def searchHandlerV2 (keyword html : String) : List SearchRec :=
  if (searchLoopV2 keyword (extractIds html.data) [] []).isEmpty then
    [gutenbergFallbackV2 keyword]
  else searchLoopV2 keyword (extractIds html.data) [] []

/-- The component state `Reader` of `src/components/Reader.tsx` reaches
once its initialisation effect has settled: the `errorMsg` and
`loading` states, whether `ePub(...)`/`renderTo` (the external
rendering capability) was invoked, and whether a close control wired to
`onClose` is rendered (the error overlay's 返回書櫃 button, resp. the
toolbar's back button). -/
structure ReaderInitState where
  errorMsg : Option String
  loading : Bool
  renderCalled : Bool
  closeAllowed : Bool
deriving Repr, DecidableEq

/-- The initialisation effect of `Reader` (`src/components/Reader.tsx`
lines 54-141): a missing `bookData.data` sets the damaged-file error
message and stops before `ePub` is ever called; otherwise the book is
handed to the rendering capability and `rendition.display()` either
succeeds or sets the render-failure error message.  `display` stands
for the outcome of `rendition.display()`. -/
def readerInit (data : Option (List Nat)) (display : Except String Unit) :
    ReaderInitState :=
  match data with
  | none =>
    { errorMsg := some ("書籍檔案損毀或遺失"), loading := false,
      renderCalled := false, closeAllowed := true }
  | some _ =>
    match display with
    | Except.ok _ =>
      { errorMsg := none, loading := false,
        renderCalled := true, closeAllowed := true }
    | Except.error _ =>
      { errorMsg := some ("無法渲染頁面，可能是檔案格式問題"), loading := false,
        renderCalled := true, closeAllowed := true }

/-- The font-size decrement request of `src/components/Reader.tsx`
(lines 264 and 454): `onUpdateSettings({...settings, fontSize:
Math.max(80, settings.fontSize - 10)})`. -/
def fontSizeDecrease (s : UserSettings) : UserSettings :=
  { s with fontSize := max 80 (s.fontSize - 10) }

/-- The font-size increment request of `src/components/Reader.tsx`
(lines 269 and 458): `onUpdateSettings({...settings, fontSize:
Math.min(180, settings.fontSize + 10)})`. -/
def fontSizeIncrease (s : UserSettings) : UserSettings :=
  { s with fontSize := min 180 (s.fontSize + 10) }

/-! ### Helper lemmas -/

theorem occursIn_nil (l : List Char) : occursIn [] l = true := by
  cases l <;> simp [occursIn, matchAt]

theorem strAppend_left_cancel (p a b : String) (h : p ++ a = p ++ b) : a = b := by
  cases p with | mk pd =>
  cases a with | mk ad =>
  cases b with | mk bd =>
  have h2 : pd ++ ad = pd ++ bd := congrArg String.data h
  exact congrArg String.mk (List.append_cancel_left h2)

theorem mem_putByKey_self (key : α → String) (xs : List α) (x : α) :
    x ∈ putByKey key xs x := by
  unfold putByKey
  by_cases h : xs.any (fun y => key y == key x) = true
  · simp only [h, if_true]
    obtain ⟨y, hy, hk⟩ := List.any_eq_true.mp h
    exact List.mem_map.mpr ⟨y, hy, by simp [hk]⟩
  · simp [h]

/-- Modelled from the spec's words for `searchNotes` (§4.3): a
"case-insensitive substring match against both the anchored excerpt
and the free-form annotation text". -/
def specNoteMatch (query : String) (n : Note) : Bool :=
  jsIncludes (jsToLower n.text) (jsToLower query) ||
    jsIncludes (jsToLower ( Note.annotation n)) (jsToLower query)

/-- The code's filter (with its JS truthiness guard on the annotation
string) is extensionally the spec's plain two-field substring match:
the only divergence candidate — an empty annotation and an empty
query — is absorbed by the excerpt disjunct, which any string
matches. -/
theorem noteMatches_eq_specNoteMatch (q : String) (n : Note) :
    noteMatches (jsToLower q) n = specNoteMatch q n := by
  unfold noteMatches specNoteMatch
  by_cases h : Note.annotation n = ""
  · rw [h]
    have hE : jsToLower "" = "" := by decide
    rw [hE]
    cases hq : (jsToLower q).data with
    | nil => simp [jsIncludes, hq, occursIn_nil]
    | cons c cs => simp [jsIncludes, hq, occursIn]
  · have hb : ( Note.annotation n == "") = false := by
      simpa using h
    rw [hb]
    simp

/-! ### Concrete fixtures used by witnesses and counterexamples -/

/-- A stored book. -/
def bookA : Book := ⟨"b1", "Money Book", "A. Author", some [1, 2, 3], "local", 5⟩

/-- A note anchored in `bookA`. -/
def noteA : Note := ⟨"n1", "b1", "epubcfi(/6/4)", "Hello world", "", "#FFEB3B", 6⟩

/-- A store holding `bookA` and `noteA`. -/
def dbA : DB := ⟨[bookA], [noteA], none⟩

/-! ### C2 — orphan tolerance of book deletion -/

/-- C2: deleting the book a note references removes nothing from and
changes nothing in the notes store, and a later `searchGlobalNotes`
whose query matches the note still returns it, joined with an absent
(`none`) book. -/
theorem deleteBook_orphan_tolerated (st : DB) (n : Note) (q : String)
    (hn : n ∈ getNotes st) (hm : noteMatches (jsToLower q) n = true) :
    getNotes (deleteBook n.bookId st) = getNotes st ∧
      (n, (none : Option Book)) ∈ searchGlobalNotes q (deleteBook n.bookId st) := by
  refine ⟨rfl, ?_⟩
  unfold searchGlobalNotes deleteBook getNotes getBooks
  simp only [List.mem_map]
  refine ⟨n, List.mem_filter.mpr ⟨hn, hm⟩, ?_⟩
  have hfind :
      (st.books.filter (fun b => !(b.id == n.bookId))).find?
        (fun b => b.id == n.bookId) = none := by
    rw [List.find?_eq_none]
    intro b hb
    have h2 := (List.mem_filter.mp hb).2
    simp at h2 ⊢
    exact h2
  rw [hfind]

/-- Closed instance of `deleteBook_orphan_tolerated`. -/
theorem deleteBook_orphan_tolerated_witness :
    noteA ∈ getNotes dbA ∧ noteMatches (jsToLower ("hell")) noteA = true ∧
      (noteA, (none : Option Book)) ∈
        searchGlobalNotes ("hell") (deleteBook (Note.bookId noteA) dbA) :=
  ⟨by decide, by decide,
    (deleteBook_orphan_tolerated dbA noteA ("hell") (by decide) (by decide)).2⟩

/-! ### C6 — searchGlobalNotes is exactly the case-insensitive
two-field substring match -/

/-- C6: `searchGlobalNotes` returns exactly the stored notes on which
the spec's case-insensitive substring match against the excerpt text
or the annotation succeeds, each joined with the catalog lookup of its
`bookId`; a note matching on neither field is excluded. -/
theorem searchGlobalNotes_matches_spec (q : String) (st : DB) :
    (∀ n : Note,
      (n, (getBooks st).find? (fun b => b.id == n.bookId)) ∈ searchGlobalNotes q st
        ↔ n ∈ getNotes st ∧ specNoteMatch q n = true) ∧
    (∀ p ∈ searchGlobalNotes q st,
      p.1 ∈ getNotes st ∧ specNoteMatch q p.1 = true ∧
        p.2 = (getBooks st).find? (fun b => b.id == p.1.bookId)) := by
  constructor
  · intro n
    unfold searchGlobalNotes
    simp only [List.mem_map, List.mem_filter]
    constructor
    · rintro ⟨n', ⟨hn', hm'⟩, heq⟩
      have hfst : n' = n := congrArg Prod.fst heq
      subst hfst
      exact ⟨hn', by rw [← noteMatches_eq_specNoteMatch]; exact hm'⟩
    · rintro ⟨hn, hm⟩
      exact ⟨n, ⟨hn, by rw [noteMatches_eq_specNoteMatch]; exact hm⟩, rfl⟩
  · intro p hp
    unfold searchGlobalNotes at hp
    simp only [List.mem_map, List.mem_filter] at hp
    obtain ⟨n', ⟨hn', hm'⟩, heq⟩ := hp
    subst heq
    exact ⟨hn', by rw [← noteMatches_eq_specNoteMatch]; exact hm', rfl⟩

/-- Closed instance of `searchGlobalNotes_matches_spec`. -/
theorem searchGlobalNotes_matches_spec_witness :
    (noteA, (getBooks dbA).find? (fun b => b.id == Note.bookId noteA)) ∈
      searchGlobalNotes ("hell") dbA :=
  ((searchGlobalNotes_matches_spec ("hell") dbA).1 noteA).mpr
    ⟨by decide, by decide⟩

/-! ### C7 — the sync hook is awaited, not fire-and-forget -/

/-- C7 counterexample: `saveNote`'s body awaits the sync hook with no
catch (`await db.put(...); await syncToNotion(note)`), so under a
failing hook the rejection reaches the caller of `saveNote`: the hook
failure is observable, contradicting the fire-and-forget claim. -/
theorem saveNote_hook_failure_reaches_caller :
    (saveNoteWith (fun _ => Except.error ("Notion sync failed")) noteA dbEmpty).2
      = Except.error ("Notion sync failed") := rfl

/-- C7 amended: `saveNote` persists the note and then awaits the sync
hook sequentially; the hook as implemented (a logging stub) always
succeeds, so `saveNote` itself always succeeds, and the note is
persisted before the hook runs, hence persisted whatever the hook's
outcome — but an uncaught hook rejection would propagate to the
caller. -/
theorem saveNote_persists_and_succeeds (note : Note) (st : DB)
    (hook : Note → Except String Unit) :
    (saveNote note st).2 = Except.ok () ∧
      note ∈ (saveNote note st).1.notes ∧
      note ∈ (saveNoteWith hook note st).1.notes :=
  ⟨rfl, mem_putByKey_self Note.id st.notes note,
    mem_putByKey_self Note.id st.notes note⟩

/-! ### C1 — `Date.now().toString()` identity collides within one
millisecond -/

/-- C1: two imports performed in the same millisecond (both see
`Date.now() = 1700000000000`) produce Book records with the same id,
and because `saveBook` is an IndexedDB `put` keyed by id, the
second import overwrites the first: the catalog afterwards holds a single
record and no record with the first import's content bytes. -/
theorem importBook_same_millisecond_collides :
    (importBook 1700000000000 ("a.epub") [1]).id
        = (importBook 1700000000000 ("b.epub") [2]).id ∧
      (getBooks (handleAddBook 1700000000000 ("b.epub") [2]
          (handleAddBook 1700000000000 ("a.epub") [1] dbEmpty))).length = 1 ∧
      ∀ b ∈ getBooks (handleAddBook 1700000000000 ("b.epub") [2]
          (handleAddBook 1700000000000 ("a.epub") [1] dbEmpty)),
        b.data ≠ some [1] := by decide

/-! ### C3 — sentinel download URL is rejected locally -/

/-- C3: an `ExternalBook` whose `downloadUrl` is the sentinel "#" is
rejected by `handleDownloadAndAdd` before anything else happens: the
run ends in the distinct `invalidSource` outcome, performs zero
network calls, and leaves the store untouched. -/
theorem sentinel_url_blocks_download (eb : ExternalBook) (confirmed : Bool)
    (fetched : Option (List Nat)) (now : Nat) (st : DB)
    (h : eb.downloadUrl = "#") :
    handleDownloadAndAdd eb confirmed fetched now st
      = { outcome := DownloadOutcome.invalidSource, networkCalls := 0,
          st := st } := by
  unfold handleDownloadAndAdd
  rw [h]
  simp

/-- Closed instance of `sentinel_url_blocks_download`. -/
theorem sentinel_url_blocks_download_witness :
    handleDownloadAndAdd ⟨"mock-haodoo", "範例", "金庸", "Demo", "#"⟩
        true (some [7]) 9 dbA
      = { outcome := DownloadOutcome.invalidSource, networkCalls := 0,
          st := dbA } :=
  sentinel_url_blocks_download ⟨"mock-haodoo", "範例", "金庸", "Demo", "#"⟩
    true (some [7]) 9 dbA rfl

/-! ### C4 — zero extracted identifiers yields a fabricated entry, not
an explicit no-results response -/

/-- C4: on an upstream page from which the pattern match extracts zero
book identifiers, both variants of the search handler respond with the
hardcoded one-element Gutenberg sample list instead of an empty
"no results" response. -/
theorem searchHandler_zero_ids_fabricates :
    extractIds ("<html>no matches here</html>").data = [] ∧
      searchHandlerV1 ("abc") ("<html>no matches here</html>")
        = [gutenbergFallbackV1 ("abc")] ∧
      searchHandlerV2 ("abc") ("<html>no matches here</html>")
        = [gutenbergFallbackV2 ("abc")] ∧
      (gutenbergFallbackV1 ("abc")).id = "gutenberg-fallback" ∧
      searchHandlerV1 ("abc") ("<html>no matches here</html>") ≠ [] := by
  decide

/-! ### C8 — opening a book without content bytes -/

/-- C8: for a book whose `data` is absent, the reader's initialisation
effect sets the damaged-file error message (the Error state), stops
the loading state, still renders the close control, and never invokes
the external rendering capability; `handleOpenBook` in the App
likewise refuses to open such a book, leaving view and active book
unchanged. -/
theorem open_dataless_book_errors (b : Book) (display : Except String Unit)
    (view : AppViewKind) (active : Option Book) (h : b.data = none) :
    (readerInit b.data display).renderCalled = false ∧
      (readerInit b.data display).errorMsg = some ("書籍檔案損毀或遺失") ∧
      (readerInit b.data display).loading = false ∧
      (readerInit b.data display).closeAllowed = true ∧
      handleOpenBook b view active = (view, active) := by
  simp [readerInit, handleOpenBook, h]

/-- Closed instance of `open_dataless_book_errors`. -/
theorem open_dataless_book_errors_witness :
    (readerInit (Book.data ⟨"d1", "T", "A", none, "local", 0⟩)
        (Except.ok ())).renderCalled = false ∧
      handleOpenBook ⟨"d1", "T", "A", none, "local", 0⟩
        AppViewKind.library none = (AppViewKind.library, none) :=
  ⟨(open_dataless_book_errors ⟨"d1", "T", "A", none, "local", 0⟩
      (Except.ok ()) AppViewKind.library none rfl).1,
    (open_dataless_book_errors ⟨"d1", "T", "A", none, "local", 0⟩
      (Except.ok ()) AppViewKind.library none rfl).2.2.2.2⟩

/-! ### C9 — font-size clamping -/

/-- C9: the reader's font-size controls request exactly
`min 180 (fontSize + 10)` and `max 80 (fontSize - 10)`, so from any
value inside [80, 180] both requests stay inside [80, 180]; in
particular incrementing from 100 requests 110 and incrementing from
175 requests 180, not 185. -/
theorem fontSize_clamped (s : UserSettings)
    (h1 : 80 ≤ s.fontSize) (h2 : s.fontSize ≤ 180) :
    (fontSizeIncrease s).fontSize = min 180 (s.fontSize + 10) ∧
      80 ≤ (fontSizeIncrease s).fontSize ∧
      (fontSizeIncrease s).fontSize ≤ 180 ∧
      (fontSizeDecrease s).fontSize = max 80 (s.fontSize - 10) ∧
      80 ≤ (fontSizeDecrease s).fontSize ∧
      (fontSizeDecrease s).fontSize ≤ 180 ∧
      (fontSizeIncrease { s with fontSize := 100 }).fontSize = 110 ∧
      (fontSizeIncrease { s with fontSize := 175 }).fontSize = 180 := by
  unfold fontSizeIncrease fontSizeDecrease
  refine ⟨rfl, ?_, ?_, rfl, ?_, ?_, ?_, ?_⟩ <;> simp <;> omega

/-- Closed instance of `fontSize_clamped`. -/
theorem fontSize_clamped_witness :
    (fontSizeIncrease ⟨ThemeType.parchment, 175, "serif"⟩).fontSize = 180 :=
  ((((fontSize_clamped ⟨ThemeType.parchment, 175, "serif"⟩
      (by decide) (by decide)).2).2).2).2.2.2.2

/-! ### C10 — queries shorter than 2 trimmed characters do nothing -/

/-- C10: a query whose trimmed length is below 2 makes `performSearch`
clear both result lists and invoke neither `searchGlobalNotes` nor
`searchFreeBooks`; any longer query invokes both, one call each. -/
theorem performSearch_short_query_noop (q : String) (st : DB)
    (online : List ExternalBook) :
    ((jsTrim q).length < 2 →
      performSearch q st online =
        { searchResults := [], externalResults := [],
          noteSearchCalls := 0, webSearchCalls := 0 }) ∧
    (2 ≤ (jsTrim q).length →
      performSearch q st online =
        { searchResults := searchGlobalNotes q st, externalResults := online,
          noteSearchCalls := 1, webSearchCalls := 1 }) := by
  constructor <;> intro h <;> unfold performSearch
  · rw [if_pos h]
  · rw [if_neg (by omega)]

/-- Closed instance of `performSearch_short_query_noop`. -/
theorem performSearch_short_query_noop_witness :
    performSearch (" a ") dbA [] =
        { searchResults := [], externalResults := [],
          noteSearchCalls := 0, webSearchCalls := 0 } ∧
      (performSearch ("ab") dbA []).webSearchCalls = 1 :=
  ⟨(performSearch_short_query_noop (" a ") dbA []).1 (by decide),
    by rw [(performSearch_short_query_noop ("ab") dbA []).2 (by decide)]⟩

/-! ### C5 — the extraction loops: cap, deduplication, audio filter -/

theorem mkHaodooRec_id_ne (keyword b b' : String) (h : b ≠ b') :
    (mkHaodooRec keyword b).id ≠ (mkHaodooRec keyword b').id := by
  intro hEq
  exact h (strAppend_left_cancel ("haodoo-") b b' hEq)

/-- Pushing a record for an identifier outside the seen-set keeps the
accumulated ids pairwise distinct. -/
theorem pairwise_push_haodoo (keyword bookId : String) (seen : List String)
    (results : List SearchRec)
    (hseen : ∀ r ∈ results, ∃ b, b ∈ seen ∧ r = mkHaodooRec keyword b)
    (hpw : results.Pairwise (fun r s => r.id ≠ s.id))
    (hc : bookId ∉ seen) :
    (results ++ [mkHaodooRec keyword bookId]).Pairwise
      (fun r s => r.id ≠ s.id) := by
  apply List.pairwise_append.mpr
  refine ⟨hpw, List.pairwise_singleton _ _, ?_⟩
  intro r hr r' hr'
  simp only [List.mem_singleton] at hr'
  subst hr'
  obtain ⟨b, hbseen, rfl⟩ := hseen r hr
  apply mkHaodooRec_id_ne
  intro hbb
  exact hc (hbb ▸ hbseen)

/-- Invariant of the `src/api/search.ts` loop: starting below the cap
with a consistent seen-set, the loop's output respects the cap of 5
and has pairwise-distinct record ids. -/
theorem searchLoopV1_inv (keyword : String) :
    ∀ (ids seen : List String) (results : List SearchRec),
      results.length < 5 →
      (∀ r ∈ results, ∃ b, b ∈ seen ∧ r = mkHaodooRec keyword b) →
      results.Pairwise (fun r s => r.id ≠ s.id) →
      (searchLoopV1 keyword ids seen results).length ≤ 5 ∧
        (searchLoopV1 keyword ids seen results).Pairwise
          (fun r s => r.id ≠ s.id) := by
  intro ids
  induction ids with
  | nil =>
    intro seen results hlen _ hpw
    simp only [searchLoopV1]
    exact ⟨by omega, hpw⟩
  | cons bookId rest ih =>
    intro seen results hlen hseen hpw
    simp only [searchLoopV1]
    by_cases hc : seen.contains bookId = true
    · rw [if_pos hc, if_neg (by omega)]
      exact ih seen results hlen hseen hpw
    · have hcm : bookId ∉ seen := by simpa using hc
      rw [if_neg hc]
      by_cases h5 : (results ++ [mkHaodooRec keyword bookId]).length ≥ 5
      · rw [if_pos h5]
        refine ⟨by simp; omega, ?_⟩
        exact pairwise_push_haodoo keyword bookId seen results hseen hpw hcm
      · rw [if_neg h5]
        apply ih
        · simp at h5 ⊢
          omega
        · intro r hr
          rcases List.mem_append.mp hr with h | h
          · obtain ⟨b, hb, rfl⟩ := hseen r h
            exact ⟨b, List.mem_cons_of_mem _ hb, rfl⟩
          · simp only [List.mem_singleton] at h
            subst h
            exact ⟨bookId, List.mem_cons_self _ _, rfl⟩
        · exact pairwise_push_haodoo keyword bookId seen results hseen hpw hcm

/-- Invariant of the `src/unnamed/part_001` loop: additionally, every
record in the output was built from an identifier whose lower-cased
form does not start with "audio". -/
theorem searchLoopV2_inv (keyword : String) :
    ∀ (ids seen : List String) (results : List SearchRec),
      results.length < 5 →
      (∀ r ∈ results, ∃ b, b ∈ seen ∧ r = mkHaodooRec keyword b ∧
        jsStartsWith (jsToLower b) ("audio") = false) →
      results.Pairwise (fun r s => r.id ≠ s.id) →
      (searchLoopV2 keyword ids seen results).length ≤ 5 ∧
        (searchLoopV2 keyword ids seen results).Pairwise
          (fun r s => r.id ≠ s.id) ∧
        (∀ r ∈ searchLoopV2 keyword ids seen results,
          ∃ b, r = mkHaodooRec keyword b ∧
            jsStartsWith (jsToLower b) ("audio") = false) := by
  intro ids
  induction ids with
  | nil =>
    intro seen results hlen hseen hpw
    simp only [searchLoopV2]
    exact ⟨by omega, hpw, fun r hr =>
      (hseen r hr).elim fun b hb => ⟨b, hb.2.1, hb.2.2⟩⟩
  | cons bookId rest ih =>
    intro seen results hlen hseen hpw
    simp only [searchLoopV2]
    by_cases hc :
        (seen.contains bookId || jsStartsWith (jsToLower bookId) ("audio"))
          = true
    · rw [if_pos hc, if_neg (by omega)]
      exact ih seen results hlen hseen hpw
    · have hc2 : seen.contains bookId = false ∧
          jsStartsWith (jsToLower bookId) ("audio") = false := by
        have hcCopy := hc
        simp only [Bool.or_eq_true, not_or, Bool.not_eq_true] at hcCopy
        exact hcCopy
      have hcm : bookId ∉ seen := by
        simpa using hc2.1
      have hseenW : ∀ r ∈ results, ∃ b, b ∈ seen ∧ r = mkHaodooRec keyword b :=
        fun r hr => (hseen r hr).elim fun b hb => ⟨b, hb.1, hb.2.1⟩
      rw [if_neg hc]
      by_cases h5 : (results ++ [mkHaodooRec keyword bookId]).length ≥ 5
      · rw [if_pos h5]
        refine ⟨by simp; omega,
          pairwise_push_haodoo keyword bookId seen results hseenW hpw hcm, ?_⟩
        intro r hr
        rcases List.mem_append.mp hr with h | h
        · exact (hseen r h).elim fun b hb => ⟨b, hb.2.1, hb.2.2⟩
        · simp only [List.mem_singleton] at h
          subst h
          exact ⟨bookId, rfl, hc2.2⟩
      · rw [if_neg h5]
        apply ih
        · simp at h5 ⊢
          omega
        · intro r hr
          rcases List.mem_append.mp hr with h | h
          · obtain ⟨b, hb, hr2, ha⟩ := hseen r h
            exact ⟨b, List.mem_cons_of_mem _ hb, hr2, ha⟩
          · simp only [List.mem_singleton] at h
            subst h
            exact ⟨bookId, List.mem_cons_self _ _, rfl, hc2.2⟩
        · exact pairwise_push_haodoo keyword bookId seen results hseenW hpw hcm

/-- C5 counterexample: `src/api/search.ts` has no audio filter — on a
page whose only extracted identifier is "audioA1", its loop emits a
record for that identifier even though the identifier's lower-cased
form begins with "audio". -/
theorem searchTs_loop_emits_audio_id :
    searchLoopV1 ("x") (extractIds ("?M=book&P=audioA1").data) [] []
        = [mkHaodooRec ("x") ("audioA1")] ∧
      (mkHaodooRec ("x") ("audioA1")).id = "haodoo-" ++ "audioA1" ∧
      jsStartsWith (jsToLower ("audioA1")) ("audio") = true := by decide

/-- C5 amended: for every keyword and every upstream page, both
variants of the extraction loop output at most 5 records with pairwise
distinct ids; the `src/unnamed/part_001` variant additionally
guarantees that no output record was built from an extracted
identifier starting (case-insensitively) with "audio", while the
`src/api/search.ts` variant has no such filter. -/
theorem search_loop_cap_dedup_audio (keyword html : String) :
    (searchLoopV1 keyword (extractIds html.data) [] []).length ≤ 5 ∧
      (searchLoopV1 keyword (extractIds html.data) [] []).Pairwise
        (fun r s => r.id ≠ s.id) ∧
      (searchLoopV2 keyword (extractIds html.data) [] []).length ≤ 5 ∧
      (searchLoopV2 keyword (extractIds html.data) [] []).Pairwise
        (fun r s => r.id ≠ s.id) ∧
      (∀ r ∈ searchLoopV2 keyword (extractIds html.data) [] [],
        ∃ b, r.id = "haodoo-" ++ b ∧
          jsStartsWith (jsToLower b) ("audio") = false) := by
  have h1 := searchLoopV1_inv keyword (extractIds html.data) [] []
    (by decide) (by simp) (List.Pairwise.nil)
  have h2 := searchLoopV2_inv keyword (extractIds html.data) [] []
    (by decide) (by simp) (List.Pairwise.nil)
  refine ⟨h1.1, h1.2, h2.1, h2.2.1, ?_⟩
  intro r hr
  obtain ⟨b, rfl, ha⟩ := h2.2.2 r hr
  exact ⟨b, rfl, ha⟩
